import Mathlib

set_option maxHeartbeats 1000000

/-!
Verification of the include-aware lexing layer of `wrapper.py`.

The base tokenizer ("lex this chunk of text into tokens") and the
filesystem are the external collaborators of the core; they enter every
definition as explicit parameters `T : String → List Tok` (tokens of a
source text, in order) and `F : String → FsResult` (outcome of `open` on
an include path).  Everything else below is translated directly from the
source file.
-/

/-- Base token produced by the external tokenizer (`lark.lexer.Token`):
slots `type`, `value`, `line`, `column`, `end_line`, `end_column`,
`start_pos`, `end_pos`. -/
structure Tok where
  type : String
  value : String
  line : Nat
  column : Nat
  endLine : Nat
  endColumn : Nat
  startPos : Nat
  endPos : Nat
deriving DecidableEq

/-- Attributed token (class `RLTToken`): every base slot plus `fname`. -/
structure RToken where
  type : String
  value : String
  line : Nat
  column : Nat
  endLine : Nat
  endColumn : Nat
  startPos : Nat
  endPos : Nat
  fname : String
deriving DecidableEq

/-- `RLTToken.__new__`: build from the base token's `type` and `value`,
copy every slot of the base token, and attach `fname`. -/
def RLTToken (base : Tok) (fname : String) : RToken :=
  ⟨base.type, base.value, base.line, base.column, base.endLine,
   base.endColumn, base.startPos, base.endPos, fname⟩

/-- `RLTLexerState`: the `fname` plus the wrapped `LexerState` (source
text and tokenizer cursor).  The cursor, opaque to this layer and owned
by the base tokenizer, is modelled as the list of base tokens it has not
yet produced. -/
structure RLTLexerState where
  fname : String
  text : String
  toks : List Tok
deriving DecidableEq

/-- Outcome of `open(fname)` at the OS boundary: readable content,
`FileNotFoundError`, or any other `OSError` (e.g. `PermissionError`) —
the source catches only `FileNotFoundError`. -/
inductive FsResult where
  | ok (content : String)
  | notFound
  | osError (strerror : String)
deriving DecidableEq

/-- The `strerror` of a `FileNotFoundError` at the OS boundary. -/
def fileNotFoundStrerror : String := "No such file or directory"

/-- How a run of the lexing loop aborts: a `BasicError` carrying a
rendered diagnostic, or an exception the source does not catch. -/
inductive Fail where
  | diagnostic (msg : String)
  | uncaught (strerror : String)
deriving DecidableEq

/-- Whether an abort is a rendered `BasicError` diagnostic. -/
def Fail.isDiagnostic : Fail → Bool
  | .diagnostic _ => true
  | .uncaught _ => false

/-- Python `str.split` with a single-character separator, over the
character list of the text: splitting the empty text gives one empty
chunk, and every separator character opens a new chunk. -/
def splitChars (sep : Char) : List Char → List (List Char)
  | [] => [[]]
  | c :: cs =>
    match splitChars sep cs with
    | [] => [[]]
    | l :: ls => if c = sep then [] :: l :: ls else (c :: l) :: ls

/-- Python `text.split(sep)` for a one-character separator. -/
def pySplit (text : String) (sep : Char) : List String :=
  (splitChars sep text.data).map String.mk

/-- Python `text.split('\n')[line - 1]`, as used with 1-based `line`
fields; out-of-range reads give `""` (the theorems that quote a source
line carry an in-range hypothesis and identify the result with the
actual list entry). -/
def lineAt (text : String) (line : Nat) : String :=
  ((pySplit text '\n').get? (line - 1)).getD ""

/-- One iteration of the `while self.state_stack` loop of
`RecursiveLexerThread.lex`.  A `yield` also records the `(fname, text)`
of `self.state`, the context that was top of the stack when the
iteration began — the state a parse-level exception raised at this token
will expose as `err.state.lexer.state`. -/
inductive Step where
  | done
  | pop (s : List RLTLexerState)
  | yield (tk : RToken) (s : List RLTLexerState) (cur : String × String)
  | fail (e : Fail) (s : List RLTLexerState)
deriving DecidableEq

/-- The body of `RecursiveLexerThread.lex`, one loop iteration: pop the
exhausted top context, or pull its next token; an `INCLUDE_FILE_NAME`
token opens its value as a file — pushing a fresh context on success,
raising a `BasicError` rendered from the includer's position on
`FileNotFoundError`, and letting any other `OSError` escape — and the
pulled token is wrapped by `RLTToken(token, lexer_state.fname)`, where
`lexer_state` is the freshly pushed state after a successful include and
the active state otherwise. -/
def lexStep (T : String → List Tok) (F : String → FsResult) :
    List RLTLexerState → Step
  | [] => .done
  | c :: rest =>
    match c.toks with
    | [] => .pop rest
    | t :: ts =>
      if t.type = "INCLUDE_FILE_NAME" then
        match F t.value with
        | .ok content =>
          let newState : RLTLexerState := ⟨t.value, content, T content⟩
          .yield (RLTToken t newState.fname)
            (newState :: ⟨c.fname, c.text, ts⟩ :: rest) (c.fname, c.text)
        | .notFound =>
          .fail (.diagnostic (fileNotFoundStrerror ++ " at " ++ c.fname ++ ":" ++
              toString t.line ++ ":" ++ toString t.column ++ ": " ++
              lineAt c.text t.line))
            (⟨c.fname, c.text, ts⟩ :: rest)
        | .osError e => .fail (.uncaught e) (⟨c.fname, c.text, ts⟩ :: rest)
      else
        .yield (RLTToken t c.fname) (⟨c.fname, c.text, ts⟩ :: rest) (c.fname, c.text)

/-- Running the generator to the end with the given amount of fuel:
returns the tokens yielded, paired with `none` on clean termination
(stack emptied) or `some e` when the loop aborted; `none` overall when
the fuel ran out first. -/
def lexRun (T : String → List Tok) (F : String → FsResult) :
    Nat → List RLTLexerState → Option (List RToken × Option Fail)
  | 0, _ => none
  | fuel + 1, stack =>
    match lexStep T F stack with
    | .done => some ([], none)
    | .pop s => lexRun T F fuel s
    | .yield tk s _ => (lexRun T F fuel s).map (fun p => (tk :: p.1, p.2))
    | .fail _e _ => some ([], some _e)

/-- View of `err.state.lexer.state` as used by `Parser._raise`: the
`RecursiveLexerThread`'s current `RLTLexerState`, exposing its `fname`
and `text`. -/
structure ErrState where
  fname : String
  text : String
deriving DecidableEq

/-- `lark.exceptions.UnexpectedToken` at the boundary consumed by
`Parser._ast`: the offending token, its position, and the lexer state at
failure time. -/
structure UnexpectedToken where
  token : Tok
  line : Nat
  column : Nat
  state : ErrState
deriving DecidableEq

/-- `lark.exceptions.UnexpectedCharacters` at the boundary consumed by
`Parser._ast`: the offending character, its position, and the lexer
state at failure time. -/
structure UnexpectedCharacters where
  char : String
  line : Nat
  column : Nat
  state : ErrState
deriving DecidableEq

/-- `Parser._raise`: render
`f'\x7bmsg\x7d at \x7bfname\x7d:\x7berr.line\x7d:\x7berr.column\x7d: \x7btext\x7d'`
where `text` is `err.state.lexer.state.text.split('\n')[err.line-1]`. -/
def raiseMsg (msg : String) (line column : Nat) (st : ErrState) : String :=
  msg ++ " at " ++ st.fname ++ ":" ++ toString line ++ ":" ++
    toString column ++ ": " ++ lineAt st.text line

/-- The `lark.exceptions.UnexpectedToken` handler of `Parser._ast`:
`Unexpected EOF` for the `$END` token, otherwise
`Unexpected Token \x7berr.token.value\x7d`, rendered by `Parser._raise`. -/
def handleUnexpectedToken (err : UnexpectedToken) : String :=
  if err.token.type = "$END" then
    raiseMsg "Unexpected EOF" err.line err.column err.state
  else
    raiseMsg ("Unexpected Token " ++ err.token.value) err.line err.column err.state

/-- The `lark.exceptions.UnexpectedCharacters` handler of `Parser._ast`:
the message string literal in the source has no `f` prefix, so the
braced placeholder is literal text. -/
def handleUnexpectedCharacters (err : UnexpectedCharacters) : String :=
  raiseMsg "Unexpected Character \x7berr.token.value\x7d" err.line err.column err.state

/-- The class returned by `wrapper_fxn`: `wrapper_fxn` executes its class
body anew on every call, so each `Parser` gets a fresh class object whose
class-level `fname` starts as `None`. -/
structure WrapperCls where
  fname : Option String
deriving DecidableEq

/-- `WrapperCls.set_fname`: rebind the class-level `fname`. -/
def WrapperCls.set_fname (_w : WrapperCls) (f : String) : WrapperCls := ⟨some f⟩

/-- The `Parser` façade: its own `WrapperCls` (built by
`wrapper_fxn(RecursiveLexerThread)` in `Parser.__init__`) and the debug
flag. -/
structure Parser where
  cls : WrapperCls
  debug : Bool
deriving DecidableEq

/-- `Parser.__init__`: construct a fresh `WrapperCls` for this instance. -/
def Parser.init (debug : Bool) : Parser := ⟨⟨none⟩, debug⟩

/-- `Parser.ast_pathlib`: bind the root name on this instance's class,
then parse the root text; the parse pulls its tokens from a
`RecursiveLexerThread` whose single initial context is the root source
bound to the class's current `fname`. -/
def Parser.ast_pathlib (T : String → List Tok) (F : String → FsResult)
    (p : Parser) (path text : String) (fuel : Nat) :
    Parser × Option (List RToken × Option Fail) :=
  let p' : Parser := ⟨p.cls.set_fname path, p.debug⟩
  (p', lexRun T F fuel [⟨(p'.cls.fname).getD "", text, T text⟩])

/-- A token list is include-free when no token is an include directive. -/
def IncludeFree (ts : List Tok) : Prop :=
  ∀ t ∈ ts, t.type ≠ "INCLUDE_FILE_NAME"

instance (ts : List Tok) : Decidable (IncludeFree ts) :=
  List.decidableBAll _ ts

/-- Finiteness of the include tree rooted at a token list: every include
token whose target opens successfully leads again to a finite include
tree.  A self- or mutual-include cycle admits no such derivation. -/
inductive FiniteTree (T : String → List Tok) (F : String → FsResult) : List Tok → Prop
  | nil : FiniteTree T F []
  | cons (t : Tok) (ts : List Tok)
      (hinc : t.type = "INCLUDE_FILE_NAME" → ∀ content,
        F t.value = FsResult.ok content → FiniteTree T F (T content))
      (htail : FiniteTree T F ts) : FiniteTree T F (t :: ts)

/-- The run from a stack terminates for some amount of fuel. -/
def Term (T : String → List Tok) (F : String → FsResult)
    (s : List RLTLexerState) : Prop :=
  ∃ fuel r, lexRun T F fuel s = some r

/-! Concrete sample data used by the witnesses below. -/

/-- Sample ordinary token at line 1 of a root file. -/
def tokA : Tok := ⟨"WORD", "aaa", 1, 1, 1, 4, 0, 3⟩

/-- Sample ordinary token at line 3 of a root file. -/
def tokB : Tok := ⟨"WORD", "bbb", 3, 1, 3, 4, 18, 21⟩

/-- Sample ordinary token at line 1 of an included file. -/
def tokU : Tok := ⟨"WORD", "u", 1, 1, 1, 2, 0, 1⟩

/-- Sample include-directive token at line 2, column 9 of a root file. -/
def incTok : Tok := ⟨"INCLUDE_FILE_NAME", "b.src", 2, 9, 2, 14, 12, 17⟩

/-- Sample root source text: `include b.src` is its line 2. -/
def rootText : String := "aaa\ninclude b.src\nbbb"

/-- Sample included source text. -/
def subText : String := "u v\n"

/-- Tokenizer that produces no tokens at all. -/
def T0 : String → List Tok := fun _ => []

/-- Tokenizer for the sample sources: the included text lexes to
`[tokU]`, everything else to the root's three tokens. -/
def TU : String → List Tok :=
  fun s => if s = subText then [tokU] else [tokA, incTok, tokB]

/-- Tokenizer producing two include-free tokens for every text. -/
def T1 : String → List Tok := fun _ => [tokA, tokB]

/-- Filesystem on which no path exists. -/
def F0 : String → FsResult := fun _ => FsResult.notFound

/-- Filesystem on which exactly `b.src` exists, holding `subText`. -/
def Fb : String → FsResult :=
  fun n => if n = "b.src" then FsResult.ok subText else FsResult.notFound

/-- Filesystem on which every open fails with a `PermissionError`. -/
def Fperm : String → FsResult := fun _ => FsResult.osError "Permission denied"

/-! Helper lemmas about the lexing loop. -/

/-- Exhausted top context: one fuel step pops it. -/
theorem lexRun_pop (T : String → List Tok) (F : String → FsResult)
    (f x : String) (rest : List RLTLexerState) (fuel : Nat) :
    lexRun T F (fuel + 1) (⟨f, x, []⟩ :: rest) = lexRun T F fuel rest := rfl

/-- Empty stack: the stream closes cleanly. -/
theorem lexRun_done (T : String → List Tok) (F : String → FsResult) :
    lexRun T F 1 [] = some ([], none) := rfl

/-- A successful include directive at the front: the directive token is
yielded, attributed to the pushed file, and the fresh context sits above
the advanced includer. -/
theorem lexRun_push (T : String → List Tok) (F : String → FsResult)
    (f x : String) (t : Tok) (ts : List Tok) (rest : List RLTLexerState)
    (fuel : Nat) (content : String)
    (ht : t.type = "INCLUDE_FILE_NAME") (hF : F t.value = FsResult.ok content) :
    lexRun T F (fuel + 1) (⟨f, x, t :: ts⟩ :: rest) =
      (lexRun T F fuel (⟨t.value, content, T content⟩ :: ⟨f, x, ts⟩ :: rest)).map
        (fun p => (RLTToken t t.value :: p.1, p.2)) := by
  have hstep : lexStep T F (⟨f, x, t :: ts⟩ :: rest) =
      Step.yield (RLTToken t t.value)
        (⟨t.value, content, T content⟩ :: ⟨f, x, ts⟩ :: rest) (f, x) := by
    simp [lexStep, ht, hF]
  rw [lexRun, hstep]

/-- Draining an include-free segment at the front of the top context
yields its tokens, attributed to that context, before whatever the rest
of that context produces. -/
theorem lexRun_seg (T : String → List Tok) (F : String → FsResult) :
    ∀ ts₁ : List Tok, IncludeFree ts₁ →
    ∀ (ts₂ : List Tok) (f x : String) (rest : List RLTLexerState) (fuel : Nat),
    lexRun T F (ts₁.length + fuel) (⟨f, x, ts₁ ++ ts₂⟩ :: rest) =
      (lexRun T F fuel (⟨f, x, ts₂⟩ :: rest)).map
        (fun p => (ts₁.map (fun t => RLTToken t f) ++ p.1, p.2)) := by
  intro ts₁
  induction ts₁ with
  | nil =>
    intro _ ts₂ f x rest fuel
    simp only [List.length_nil, Nat.zero_add, List.nil_append, List.map_nil]
    cases lexRun T F fuel (⟨f, x, ts₂⟩ :: rest) with
    | none => rfl
    | some p => rfl
  | cons t ts ih =>
    intro h ts₂ f x rest fuel
    have ht : t.type ≠ "INCLUDE_FILE_NAME" := h t (by simp)
    have hts : IncludeFree ts := fun u hu => h u (by simp [hu])
    have hlen : (t :: ts).length + fuel = (ts.length + fuel) + 1 := by
      simp [List.length_cons]; omega
    rw [hlen]
    have hstep : lexStep T F (⟨f, x, (t :: ts) ++ ts₂⟩ :: rest) =
        Step.yield (RLTToken t f) (⟨f, x, ts ++ ts₂⟩ :: rest) (f, x) := by
      simp [lexStep, ht]
    rw [lexRun, hstep]
    show Option.map (fun p => (RLTToken t f :: p.1, p.2))
        (lexRun T F (ts.length + fuel) (⟨f, x, ts ++ ts₂⟩ :: rest)) =
      Option.map (fun p => ((t :: ts).map (fun u => RLTToken u f) ++ p.1, p.2))
        (lexRun T F fuel (⟨f, x, ts₂⟩ :: rest))
    rw [ih hts ts₂ f x rest fuel]
    cases lexRun T F fuel (⟨f, x, ts₂⟩ :: rest) with
    | none => rfl
    | some p => rfl

/-- Draining a whole include-free top context yields its tokens and then
pops, continuing with the rest of the stack. -/
theorem lexRun_drain (T : String → List Tok) (F : String → FsResult)
    (ts : List Tok) (h : IncludeFree ts) (f x : String)
    (rest : List RLTLexerState) (fuel : Nat) :
    lexRun T F (ts.length + (fuel + 1)) (⟨f, x, ts⟩ :: rest) =
      (lexRun T F fuel rest).map
        (fun p => (ts.map (fun t => RLTToken t f) ++ p.1, p.2)) := by
  have hs := lexRun_seg T F ts h [] f x rest (fuel + 1)
  rw [List.append_nil] at hs
  rw [hs, lexRun_pop]

/-- More fuel never changes a run that already finished. -/
theorem lexRun_mono (T : String → List Tok) (F : String → FsResult) :
    ∀ (fuel : Nat) (s : List RLTLexerState) (r : List RToken × Option Fail),
    lexRun T F fuel s = some r → lexRun T F (fuel + 1) s = some r := by
  intro fuel
  induction fuel with
  | zero =>
    intro s r h
    simp [lexRun] at h
  | succ n ih =>
    intro s r h
    rw [lexRun] at h ⊢
    cases hs : lexStep T F s with
    | done => rw [hs] at h; exact h
    | pop s' => rw [hs] at h; exact ih s' r h
    | yield tk s' cur =>
      rw [hs] at h
      have h' : Option.map (fun p => (tk :: p.1, p.2)) (lexRun T F n s') = some r := h
      cases hr : lexRun T F n s' with
      | none => rw [hr] at h'; simp at h'
      | some p =>
        rw [hr] at h'
        show Option.map (fun p => (tk :: p.1, p.2)) (lexRun T F (n + 1) s') = some r
        rw [ih s' p hr]
        exact h'
    | fail e s' => rw [hs] at h; exact h

/-- The stack of the empty context list terminates. -/
theorem term_nil (T : String → List Tok) (F : String → FsResult) :
    Term T F [] := ⟨1, ([], none), rfl⟩

/-- A step that yields reduces termination to the successor stack. -/
theorem term_of_yield (T : String → List Tok) (F : String → FsResult)
    (s s' : List RLTLexerState) (tk : RToken) (cur : String × String)
    (hs : lexStep T F s = Step.yield tk s' cur) (h : Term T F s') : Term T F s := by
  obtain ⟨fuel, r, hr⟩ := h
  refine ⟨fuel + 1, (tk :: r.1, r.2), ?_⟩
  rw [lexRun, hs]
  show Option.map (fun p => (tk :: p.1, p.2)) (lexRun T F fuel s') = some (tk :: r.1, r.2)
  rw [hr]
  rfl

/-- A step that pops reduces termination to the successor stack. -/
theorem term_of_pop (T : String → List Tok) (F : String → FsResult)
    (s s' : List RLTLexerState)
    (hs : lexStep T F s = Step.pop s') (h : Term T F s') : Term T F s := by
  obtain ⟨fuel, r, hr⟩ := h
  exact ⟨fuel + 1, r, by rw [lexRun, hs]; exact hr⟩

/-- A step that aborts terminates at once. -/
theorem term_of_fail (T : String → List Tok) (F : String → FsResult)
    (s s' : List RLTLexerState) (e : Fail)
    (hs : lexStep T F s = Step.fail e s') : Term T F s :=
  ⟨1, ([], some e), by rw [lexRun, hs]⟩

/-- A context whose remaining tokens have a finite include tree, atop a
terminating stack, terminates. -/
theorem term_stack (T : String → List Tok) (F : String → FsResult) :
    ∀ ts : List Tok, FiniteTree T F ts →
    ∀ (f x : String) (rest : List RLTLexerState), Term T F rest →
    Term T F (⟨f, x, ts⟩ :: rest) := by
  intro ts hts
  induction hts with
  | nil =>
    intro f x rest hrest
    exact term_of_pop T F _ rest rfl hrest
  | cons t ts hinc htail ihinc ihtail =>
    intro f x rest hrest
    by_cases ht : t.type = "INCLUDE_FILE_NAME"
    · cases hF : F t.value with
      | ok content =>
        refine term_of_yield T F _
          (⟨t.value, content, T content⟩ :: ⟨f, x, ts⟩ :: rest)
          (RLTToken t t.value) (f, x) (by simp [lexStep, ht, hF]) ?_
        exact ihinc ht content hF t.value content (⟨f, x, ts⟩ :: rest)
          (ihtail f x rest hrest)
      | notFound =>
        exact term_of_fail T F _ (⟨f, x, ts⟩ :: rest)
          (Fail.diagnostic (fileNotFoundStrerror ++ " at " ++ f ++ ":" ++
            toString t.line ++ ":" ++ toString t.column ++ ": " ++ lineAt x t.line))
          (by simp [lexStep, ht, hF])
      | osError e =>
        exact term_of_fail T F _ (⟨f, x, ts⟩ :: rest) (Fail.uncaught e)
          (by simp [lexStep, ht, hF])
    · refine term_of_yield T F _ (⟨f, x, ts⟩ :: rest) (RLTToken t f) (f, x)
        (by simp [lexStep, ht]) (ihtail f x rest hrest)

/-- C1 counterexample: in the source, a successfully resolved include
directive is emitted as `RLTToken(token, lexer_state.fname)` after
`lexer_state` has been rebound to the freshly pushed state, so the
directive token's origin name is the included file's name `b.src`, not
the includer's `main.src`, contradicting the claim. -/
theorem c1_counterexample :
    lexStep TU Fb [⟨"main.src", rootText, [incTok]⟩] =
      Step.yield (RLTToken incTok "b.src")
        (⟨"b.src", subText, [tokU]⟩ :: ⟨"main.src", rootText, []⟩ :: [])
        ("main.src", rootText) ∧
    (RLTToken incTok "b.src").fname = "b.src" ∧
    ("b.src" : String) ≠ "main.src" := by
  refine ⟨by decide, rfl, by decide⟩

/-- C1 as amended: when an include directive resolves successfully, the
directive token is still emitted, but its origin name is the newly
pushed included file's name (the directive's path value), not the
includer's context name; this holds for every successful include at any
depth (any stack). -/
theorem c1_theorem (T : String → List Tok) (F : String → FsResult)
    (f x : String) (t : Tok) (ts : List Tok) (rest : List RLTLexerState)
    (content : String) (ht : t.type = "INCLUDE_FILE_NAME")
    (hF : F t.value = FsResult.ok content) :
    lexStep T F (⟨f, x, t :: ts⟩ :: rest) =
      Step.yield (RLTToken t t.value)
        (⟨t.value, content, T content⟩ :: ⟨f, x, ts⟩ :: rest) (f, x) ∧
    (RLTToken t t.value).fname = t.value :=
  ⟨by simp [lexStep, ht, hF], rfl⟩

/-- C1 witness: the amended statement evaluated on the sample sources. -/
theorem c1_witness :
    incTok.type = "INCLUDE_FILE_NAME" ∧ Fb incTok.value = FsResult.ok subText ∧
    (lexStep TU Fb [⟨"main.src", rootText, [incTok]⟩] =
      Step.yield (RLTToken incTok incTok.value)
        (⟨incTok.value, subText, TU subText⟩ :: ⟨"main.src", rootText, []⟩ :: [])
        ("main.src", rootText) ∧
     (RLTToken incTok incTok.value).fname = incTok.value) :=
  ⟨by decide, by decide,
   c1_theorem TU Fb "main.src" rootText incTok [] [] subText (by decide) (by decide)⟩

/-- C3 counterexample: an include target that exists but cannot be read
(`PermissionError`, strerror `Permission denied`) is not caught by the
`except FileNotFoundError` clause, so the failure is the raw `OSError`,
not a rendered diagnostic — the claim's "unreadable" case fails. -/
theorem c3_counterexample :
    lexStep T0 Fperm [⟨"main.src", rootText, [incTok]⟩] =
      Step.fail (Fail.uncaught "Permission denied") [⟨"main.src", rootText, []⟩] ∧
    (Fail.uncaught "Permission denied").isDiagnostic = false := by
  refine ⟨by decide, rfl⟩

/-- C3 as amended: for every include directive whose target file does
not exist (`FileNotFoundError`), the lexer raises a diagnostic that is
exactly the I/O error message, the includer's file name, the directive
token's line and column, and the literal text of that line of the
includer's source. -/
theorem c3_theorem (T : String → List Tok) (F : String → FsResult)
    (f x : String) (t : Tok) (ts : List Tok) (rest : List RLTLexerState)
    (ht : t.type = "INCLUDE_FILE_NAME") (hF : F t.value = FsResult.notFound)
    (hline : t.line - 1 < (pySplit x '\n').length) :
    lexStep T F (⟨f, x, t :: ts⟩ :: rest) =
      Step.fail (Fail.diagnostic ("No such file or directory" ++ " at " ++ f ++ ":" ++
          toString t.line ++ ":" ++ toString t.column ++ ": " ++ lineAt x t.line))
        (⟨f, x, ts⟩ :: rest) ∧
    (pySplit x '\n').get? (t.line - 1) = some (lineAt x t.line) := by
  constructor
  · simp [lexStep, ht, hF, fileNotFoundStrerror]
  · cases hq : (pySplit x '\n').get? (t.line - 1) with
    | none =>
      exfalso
      have := List.get?_eq_none.mp hq
      omega
    | some a =>
      rw [lineAt, hq]
      rfl

/-- C3 witness: the amended statement evaluated on the sample root whose
include directive at line 2, column 9 names a missing file. -/
theorem c3_witness :
    incTok.type = "INCLUDE_FILE_NAME" ∧ F0 incTok.value = FsResult.notFound ∧
    incTok.line - 1 < (pySplit rootText '\n').length ∧
    (lexStep T0 F0 [⟨"main.src", rootText, [incTok]⟩] =
      Step.fail (Fail.diagnostic ("No such file or directory" ++ " at " ++ "main.src" ++ ":" ++
          toString incTok.line ++ ":" ++ toString incTok.column ++ ": " ++
          lineAt rootText incTok.line))
        [⟨"main.src", rootText, []⟩] ∧
     (pySplit rootText '\n').get? (incTok.line - 1) = some (lineAt rootText incTok.line)) :=
  ⟨by decide, by decide, by decide,
   c3_theorem T0 F0 "main.src" rootText incTok [] [] (by decide) (by decide) (by decide)⟩

/-- C10: when an include target cannot be found, the failure is atomic —
the diagnostic is raised with no context pushed (the stack keeps exactly
the same contexts, by name, text and count), and the directive token is
never yielded: from the moment the directive is pulled the run emits no
token at all. -/
theorem c10_theorem (T : String → List Tok) (F : String → FsResult)
    (f x : String) (t : Tok) (ts : List Tok) (rest : List RLTLexerState)
    (ht : t.type = "INCLUDE_FILE_NAME") (hF : F t.value = FsResult.notFound) :
    (∃ msg, lexStep T F (⟨f, x, t :: ts⟩ :: rest) =
        Step.fail (Fail.diagnostic msg) (⟨f, x, ts⟩ :: rest)) ∧
    ((⟨f, x, ts⟩ :: rest : List RLTLexerState).map (fun d => (d.fname, d.text)) =
      ((⟨f, x, t :: ts⟩ :: rest : List RLTLexerState)).map (fun d => (d.fname, d.text))) ∧
    ((⟨f, x, ts⟩ :: rest : List RLTLexerState).length =
      ((⟨f, x, t :: ts⟩ :: rest : List RLTLexerState)).length) ∧
    (∀ fuel, lexRun T F (fuel + 1) (⟨f, x, t :: ts⟩ :: rest) =
      some ([], some (Fail.diagnostic (fileNotFoundStrerror ++ " at " ++ f ++ ":" ++
        toString t.line ++ ":" ++ toString t.column ++ ": " ++ lineAt x t.line)))) := by
  have hstep : lexStep T F (⟨f, x, t :: ts⟩ :: rest) =
      Step.fail (Fail.diagnostic (fileNotFoundStrerror ++ " at " ++ f ++ ":" ++
        toString t.line ++ ":" ++ toString t.column ++ ": " ++ lineAt x t.line))
        (⟨f, x, ts⟩ :: rest) := by
    simp [lexStep, ht, hF]
  refine ⟨⟨_, hstep⟩, rfl, rfl, ?_⟩
  intro fuel
  rw [lexRun, hstep]

/-- C10 witness: the atomic-failure statement evaluated on the sample
root whose include target is missing, with one fuel step. -/
theorem c10_witness :
    incTok.type = "INCLUDE_FILE_NAME" ∧ F0 incTok.value = FsResult.notFound ∧
    lexRun T0 F0 1 [⟨"main.src", rootText, [incTok]⟩] =
      some ([], some (Fail.diagnostic (fileNotFoundStrerror ++ " at " ++ "main.src" ++ ":" ++
        toString incTok.line ++ ":" ++ toString incTok.column ++ ": " ++
        lineAt rootText incTok.line))) :=
  ⟨by decide, by decide,
   (c10_theorem T0 F0 "main.src" rootText incTok [] [] (by decide) (by decide)).2.2.2 0⟩

/-- C2: for a root whose tokens are an include-free prefix, an include
directive resolving to file B (itself include-free), and an include-free
remainder, the attributed stream is, in document order, exactly: the
prefix, the directive token, all of B's tokens, then the remainder
starting right after the directive — nothing repeated or skipped, and
the run terminates cleanly. -/
theorem c2_theorem (T : String → List Tok) (F : String → FsResult)
    (f x : String) (pre post : List Tok) (inc : Tok) (contentB : String)
    (hpre : IncludeFree pre) (hpost : IncludeFree post)
    (hinc : inc.type = "INCLUDE_FILE_NAME") (hF : F inc.value = FsResult.ok contentB)
    (hB : IncludeFree (T contentB)) :
    lexRun T F (pre.length + (((T contentB).length + ((post.length + (1 + 1)) + 1)) + 1))
        [⟨f, x, pre ++ inc :: post⟩] =
      some (pre.map (fun t => RLTToken t f) ++
            RLTToken inc inc.value ::
              ((T contentB).map (fun t => RLTToken t inc.value) ++
               post.map (fun t => RLTToken t f)), none) := by
  rw [lexRun_seg T F pre hpre (inc :: post) f x []
    ((((T contentB).length + ((post.length + (1 + 1)) + 1)) + 1))]
  rw [lexRun_push T F f x inc post []
    (((T contentB).length + ((post.length + (1 + 1)) + 1))) contentB hinc hF]
  rw [lexRun_drain T F (T contentB) hB inc.value contentB (⟨f, x, post⟩ :: [])
    ((post.length + (1 + 1)))]
  rw [lexRun_drain T F post hpost f x [] 1]
  rw [lexRun_done T F]
  simp

/-- C2 witness: the inclusion-ordering statement evaluated on the sample
root `main.src`, whose directive at line 2 includes `b.src`. -/
theorem c2_witness :
    IncludeFree [tokA] ∧ IncludeFree [tokB] ∧
    incTok.type = "INCLUDE_FILE_NAME" ∧ Fb incTok.value = FsResult.ok subText ∧
    IncludeFree (TU subText) ∧
    lexRun TU Fb
        ([tokA].length + (((TU subText).length + (([tokB].length + (1 + 1)) + 1)) + 1))
        [⟨"main.src", rootText, [tokA] ++ incTok :: [tokB]⟩] =
      some ([tokA].map (fun t => RLTToken t "main.src") ++
            RLTToken incTok incTok.value ::
              ((TU subText).map (fun t => RLTToken t incTok.value) ++
               [tokB].map (fun t => RLTToken t "main.src")), none) :=
  ⟨by decide, by decide, by decide, by decide, by decide,
   c2_theorem TU Fb "main.src" rootText [tokA] [tokB] incTok subText
     (by decide) (by decide) (by decide) (by decide) (by decide)⟩

/-- C6: a root with no include directive produces exactly one output
token per base token, in order, each exposing every field of the base
token unchanged plus the root's origin name, and the run ends cleanly. -/
theorem c6_theorem (T : String → List Tok) (F : String → FsResult)
    (f x : String) (h : IncludeFree (T x)) :
    lexRun T F ((T x).length + (1 + 1)) [⟨f, x, T x⟩] =
      some ((T x).map (fun t =>
        (⟨t.type, t.value, t.line, t.column, t.endLine, t.endColumn,
          t.startPos, t.endPos, f⟩ : RToken)), none) := by
  rw [lexRun_drain T F (T x) h f x [] 1, lexRun_done T F]
  simp [RLTToken]

/-- C6 witness: the flattening statement evaluated on an include-free
two-token root. -/
theorem c6_witness :
    IncludeFree (T1 "aaa\nbbb") ∧
    lexRun T1 F0 ((T1 "aaa\nbbb").length + (1 + 1)) [⟨"main.src", "aaa\nbbb", T1 "aaa\nbbb"⟩] =
      some ((T1 "aaa\nbbb").map (fun t =>
        (⟨t.type, t.value, t.line, t.column, t.endLine, t.endColumn,
          t.startPos, t.endPos, "main.src"⟩ : RToken)), none) :=
  ⟨by decide, c6_theorem T1 F0 "main.src" "aaa\nbbb" (by decide)⟩

/-- C8: the stream closes exactly when the stack is empty (`done` iff
empty stack, so the stack is non-empty throughout production); a context
is removed only when its tokenizer is exhausted; and for every root
whose include tree is finite the run terminates. -/
theorem c8_theorem (T : String → List Tok) (F : String → FsResult) :
    (∀ s, lexStep T F s = Step.done ↔ s = []) ∧
    (∀ s s', lexStep T F s = Step.pop s' →
      ∃ c, s = c :: s' ∧ c.toks = ([] : List Tok)) ∧
    (∀ f x, FiniteTree T F (T x) → Term T F [⟨f, x, T x⟩]) := by
  refine ⟨?_, ?_, ?_⟩
  · intro s
    constructor
    · intro h
      cases s with
      | nil => rfl
      | cons c rest =>
        exfalso
        obtain ⟨cf, cx, ctoks⟩ := c
        cases ctoks with
        | nil => simp [lexStep] at h
        | cons t ts =>
          by_cases ht : t.type = "INCLUDE_FILE_NAME"
          · cases hF : F t.value with
            | ok content => simp [lexStep, ht, hF] at h
            | notFound => simp [lexStep, ht, hF] at h
            | osError e => simp [lexStep, ht, hF] at h
          · simp [lexStep, ht] at h
    · intro h
      subst h
      rfl
  · intro s s' h
    cases s with
    | nil => simp [lexStep] at h
    | cons c rest =>
      obtain ⟨cf, cx, ctoks⟩ := c
      cases ctoks with
      | nil =>
        have hr : rest = s' := by simpa [lexStep] using h
        exact ⟨⟨cf, cx, []⟩, by rw [hr], rfl⟩
      | cons t ts =>
        exfalso
        by_cases ht : t.type = "INCLUDE_FILE_NAME"
        · cases hF : F t.value with
          | ok content => simp [lexStep, ht, hF] at h
          | notFound => simp [lexStep, ht, hF] at h
          | osError e => simp [lexStep, ht, hF] at h
        · simp [lexStep, ht] at h
  · intro f x hfin
    exact term_stack T F (T x) hfin f x [] (term_nil T F)

/-- C8 witness: a zero-include root terminates; its (empty) include tree
is finite by the base constructor. -/
theorem c8_witness :
    FiniteTree T0 F0 (T0 "") ∧ Term T0 F0 [⟨"main.src", "", T0 ""⟩] :=
  ⟨FiniteTree.nil, (c8_theorem T0 F0).2.2 "main.src" "" FiniteTree.nil⟩

/-- C4: the `UnexpectedCharacters` message in the source lacks the
f-string prefix, so the rendered diagnostic carries the literal text
`Unexpected Character \x7berr.token.value\x7d` instead of the offending
value: evaluated at a concrete failure on `^` at `main.src:1:1`, the
output differs from what the claim requires. -/
theorem c4_theorem :
    handleUnexpectedCharacters ⟨"^", 1, 1, ⟨"main.src", "^ab\ncd"⟩⟩ =
      "Unexpected Character \x7berr.token.value\x7d at main.src:1:1: ^ab" ∧
    handleUnexpectedCharacters ⟨"^", 1, 1, ⟨"main.src", "^ab\ncd"⟩⟩ ≠
      "Unexpected Character ^ at main.src:1:1: ^ab" := by
  refine ⟨by decide, by decide⟩

/-- C5: a grammar-level failure renders as `Unexpected EOF` when the
offending token is the end marker and `Unexpected Token <value>`
otherwise, in the shape
`<message> at <origin>:<line>:<column>: <source-line-text>` built from
the failing context's origin name and source text. -/
theorem c5_theorem (err : UnexpectedToken)
    (hline : err.line - 1 < (pySplit err.state.text '\n').length) :
    handleUnexpectedToken err =
      (if err.token.type = "$END" then "Unexpected EOF"
       else "Unexpected Token " ++ err.token.value) ++
      " at " ++ err.state.fname ++ ":" ++ toString err.line ++ ":" ++
      toString err.column ++ ": " ++ lineAt err.state.text err.line ∧
    (pySplit err.state.text '\n').get? (err.line - 1) =
      some (lineAt err.state.text err.line) := by
  constructor
  · by_cases h : err.token.type = "$END"
    · simp [handleUnexpectedToken, raiseMsg, h]
    · simp [handleUnexpectedToken, raiseMsg, h]
  · cases hq : (pySplit err.state.text '\n').get? (err.line - 1) with
    | none =>
      exfalso
      have := List.get?_eq_none.mp hq
      omega
    | some a =>
      rw [lineAt, hq]
      rfl

/-- C5 witness: the rendering statement evaluated at a non-end-marker
failure inside `b.src`. -/
theorem c5_witness :
    (⟨tokA, 2, 5, ⟨"b.src", "u v\nw x"⟩⟩ : UnexpectedToken).line - 1 <
      (pySplit (⟨tokA, 2, 5, ⟨"b.src", "u v\nw x"⟩⟩ : UnexpectedToken).state.text '\n').length ∧
    (handleUnexpectedToken ⟨tokA, 2, 5, ⟨"b.src", "u v\nw x"⟩⟩ =
      (if tokA.type = "$END" then "Unexpected EOF"
       else "Unexpected Token " ++ tokA.value) ++
      " at " ++ "b.src" ++ ":" ++ toString (2 : Nat) ++ ":" ++
      toString (5 : Nat) ++ ": " ++ lineAt "u v\nw x" 2 ∧
     (pySplit "u v\nw x" '\n').get? (2 - 1) = some (lineAt "u v\nw x" 2)) :=
  ⟨by decide, c5_theorem ⟨tokA, 2, 5, ⟨"b.src", "u v\nw x"⟩⟩ (by decide)⟩

/-- C7: a token pulled from an included file is produced while
`self.state` is the included file's context, so a grammar-level failure
at that token renders through `Parser._raise` with the included file's
origin name and a line quoted from the included file's text — never the
includer's. -/
theorem c7_theorem (T : String → List Tok) (F : String → FsResult)
    (af ax : String) (t : Tok) (ts : List Tok) (rest : List RLTLexerState)
    (content : String) (u : Tok) (us : List Tok) (msgPart : String)
    (ht : t.type = "INCLUDE_FILE_NAME") (hF : F t.value = FsResult.ok content)
    (hT : T content = u :: us) (hu : u.type ≠ "INCLUDE_FILE_NAME")
    (hline : u.line - 1 < (pySplit content '\n').length) :
    lexStep T F (⟨af, ax, t :: ts⟩ :: rest) =
      Step.yield (RLTToken t t.value)
        (⟨t.value, content, u :: us⟩ :: ⟨af, ax, ts⟩ :: rest) (af, ax) ∧
    lexStep T F (⟨t.value, content, u :: us⟩ :: ⟨af, ax, ts⟩ :: rest) =
      Step.yield (RLTToken u t.value)
        (⟨t.value, content, us⟩ :: ⟨af, ax, ts⟩ :: rest) (t.value, content) ∧
    raiseMsg msgPart u.line u.column ⟨t.value, content⟩ =
      msgPart ++ " at " ++ t.value ++ ":" ++ toString u.line ++ ":" ++
        toString u.column ++ ": " ++ lineAt content u.line ∧
    (pySplit content '\n').get? (u.line - 1) = some (lineAt content u.line) := by
  refine ⟨by simp [lexStep, ht, hF, hT], by simp [lexStep, hu], rfl, ?_⟩
  cases hq : (pySplit content '\n').get? (u.line - 1) with
  | none =>
    exfalso
    have := List.get?_eq_none.mp hq
    omega
  | some a =>
    rw [lineAt, hq]
    rfl

/-- C7 witness: the included-file locality statement evaluated on
`main.src` including `b.src`, failing at the first token of `b.src`. -/
theorem c7_witness :
    incTok.type = "INCLUDE_FILE_NAME" ∧ Fb incTok.value = FsResult.ok subText ∧
    TU subText = [tokU] ∧ tokU.type ≠ "INCLUDE_FILE_NAME" ∧
    tokU.line - 1 < (pySplit subText '\n').length ∧
    (lexStep TU Fb (⟨"main.src", rootText, [incTok]⟩ :: []) =
      Step.yield (RLTToken incTok incTok.value)
        (⟨incTok.value, subText, tokU :: []⟩ :: ⟨"main.src", rootText, []⟩ :: [])
        ("main.src", rootText) ∧
     lexStep TU Fb (⟨incTok.value, subText, tokU :: []⟩ :: ⟨"main.src", rootText, []⟩ :: []) =
      Step.yield (RLTToken tokU incTok.value)
        (⟨incTok.value, subText, []⟩ :: ⟨"main.src", rootText, []⟩ :: [])
        (incTok.value, subText) ∧
     raiseMsg "Unexpected Token u" tokU.line tokU.column ⟨incTok.value, subText⟩ =
      "Unexpected Token u" ++ " at " ++ incTok.value ++ ":" ++ toString tokU.line ++ ":" ++
        toString tokU.column ++ ": " ++ lineAt subText tokU.line ∧
     (pySplit subText '\n').get? (tokU.line - 1) = some (lineAt subText tokU.line)) :=
  ⟨by decide, by decide, by decide, by decide, by decide,
   c7_theorem TU Fb "main.src" rootText incTok [] [] subText tokU [] "Unexpected Token u"
     (by decide) (by decide) (by decide) (by decide) (by decide)⟩

/-- C9: two independently constructed `Parser` façades are isolated —
after one instance parses a different root `g` (leaving its own class
binding at `some g`), the other instance's parse of the same root gives
the identical outcome (token stream and failure, hence tree and
diagnostic at the deterministic engine boundary), which is a pure
function of the root name, text, tokenizer and filesystem. -/
theorem c9_theorem (T : String → List Tok) (F : String → FsResult)
    (debug : Bool) (path text g gtext : String) (fuel gfuel : Nat) :
    (Parser.ast_pathlib T F
        ((Parser.ast_pathlib T F (Parser.init debug) g gtext gfuel).1)
        path text fuel).2 =
      (Parser.ast_pathlib T F (Parser.init debug) path text fuel).2 ∧
    ((Parser.ast_pathlib T F (Parser.init debug) g gtext gfuel).1).cls.fname = some g ∧
    (Parser.ast_pathlib T F (Parser.init debug) path text fuel).2 =
      lexRun T F fuel [⟨path, text, T text⟩] :=
  ⟨rfl, rfl, rfl⟩
